import Mathlib

/-!
Verification of the plant-knowledge-graph QA system
(`src/api/free_qa_system.py`) against its specification.

The graph database is modelled as explicit lists of plant records and
typed edges; `session.run` query templates become pure functions over
that structure.  Python string operations (`in`, `.lower()`, `or`,
truthiness, f-strings) are modelled by the helpers below.  The external
tokenizer `jieba.lcut` is an oracle parameter `tok`.
-/

namespace PlantQA

/-- Python substring test on character lists: `isPrefixL n h` is true
when `n` is a prefix of `h`. -/
def isPrefixL : List Char → List Char → Bool
  | [], _ => true
  | _ :: _, [] => false
  | a :: as, b :: bs => a == b && isPrefixL as bs

/-- `substrL n h`: `n` occurs as a contiguous sublist of `h`
(Python `n in h` for strings). -/
def substrL (needle : List Char) : List Char → Bool
  | [] => needle.isEmpty
  | b :: bs => isPrefixL needle (b :: bs) || substrL needle bs

/-- Python `needle in haystack` for strings. -/
def substrInS (needle haystack : String) : Bool :=
  substrL needle.data haystack.data

/-- Models Python `str.lower()` as character-wise ASCII case folding
(the behaviour of `String.toLower`).  All keywords and entity names in
this system are Chinese, which `lower()` leaves unchanged, so ASCII
case folding is an adequate model. -/
def pyLower (s : String) : String := String.mk (s.data.map Char.toLower)

/-- Python truthiness for a string-valued graph property that may be
null: `None` and `""` are falsy. -/
def truthy : Option String → Bool
  | none => false
  | some s => !(s == "")

/-- Python `str()` rendering used by f-string interpolation of a
possibly-null property: `None` prints as `"None"`. -/
def pyStr : Option String → String
  | none => "None"
  | some s => s

/-- Python `x or d` for a string-or-null `x` (used by
`get_plant_detail`). -/
def orElseStr (o : Option String) (d : String) : String :=
  match o with
  | none => d
  | some s => if s == "" then d else s

/-- Code-point lexicographic order on character lists (Neo4j
`ORDER BY p.name` on these names). -/
def lexLt : List Char → List Char → Bool
  | [], [] => false
  | [], _ :: _ => true
  | _ :: _, [] => false
  | a :: as, b :: bs =>
    if a.toNat < b.toNat then true
    else if b.toNat < a.toNat then false
    else lexLt as bs

/-- Code-point lexicographic order on strings. -/
def strLtB (s t : String) : Bool := lexLt s.data t.data

/-- Insert into a lexicographically sorted list. -/
def insertSorted (s : String) : List String → List String
  | [] => [s]
  | x :: xs => if strLtB s x then s :: x :: xs else x :: insertSorted s xs

/-- Insertion sort by code-point order, modelling `ORDER BY p.name`. -/
def sortStrings : List String → List String
  | [] => []
  | x :: xs => insertSorted x (sortStrings xs)

/-- `collect(DISTINCT …)`: first-occurrence deduplication. -/
def distinctAux (seen : List String) : List String → List String
  | [] => []
  | x :: xs =>
    if seen.contains x then distinctAux seen xs
    else x :: distinctAux (x :: seen) xs

/-- `collect(DISTINCT …)` over a value list. -/
def distinctList (l : List String) : List String := distinctAux [] l

/-- A `Plant` node: flat properties created by the importer, each
possibly null. -/
structure Plant where
  name : String
  latin_name : Option String
  family : Option String
  genus : Option String
  distribution : Option String
  folk_use : Option String
  ecological_meaning : Option String
  cultural_symbol : Option String
  medicinal_value : Option String
  literature_source : Option String
  festival : Option String
deriving DecidableEq

/-- The graph reachable by the QA system's query templates: plant nodes
plus the four typed edge collections, each edge as
(plant name, related node's value). -/
structure Graph where
  plants : List Plant
  has_symbol : List (String × String)
  has_medicinal : List (String × String)
  recorded_in : List (String × String)
  related_to_festival : List (String × String)
deriving DecidableEq

/-- `MATCH (p:Plant {name:$name}) RETURN p …` with `result.single()`. -/
def findPlant (g : Graph) (n : String) : Option Plant :=
  g.plants.find? (fun p => p.name == n)

/-- `MATCH (p {name})-[:HAS_SYMBOL]->(s) RETURN collect(s.meaning)`. -/
def symbolsOf (g : Graph) (n : String) : List String :=
  (g.has_symbol.filter (fun e => e.1 == n)).map (fun e => e.2)

/-- `MATCH (p {name})-[:HAS_MEDICINAL]->(m) RETURN collect(m.effect)`. -/
def medicinalOf (g : Graph) (n : String) : List String :=
  (g.has_medicinal.filter (fun e => e.1 == n)).map (fun e => e.2)

/-- `MATCH (p {name})-[:RECORDED_IN]->(l) RETURN collect(l.name)`. -/
def literatureOf (g : Graph) (n : String) : List String :=
  (g.recorded_in.filter (fun e => e.1 == n)).map (fun e => e.2)

/-- `MATCH (p {name})-[:RELATED_TO_FESTIVAL]->(f) RETURN collect(f.name)`. -/
def festivalsOf (g : Graph) (n : String) : List String :=
  (g.related_to_festival.filter (fun e => e.1 == n)).map (fun e => e.2)

/-- `MATCH (p)-[:RELATED_TO_FESTIVAL]->(f) WHERE f.name CONTAINS kw
RETURN p.name` (general handler's festival query). -/
def festival_query (g : Graph) (kw : String) : List String :=
  (g.related_to_festival.filter (fun e => substrInS kw e.2)).map (fun e => e.1)

/-- `MATCH (p)-[:RECORDED_IN]->(l) WHERE l.name CONTAINS '楚辞' OR
l.name CONTAINS '诗经' RETURN p.name`. -/
def lit_query (g : Graph) : List String :=
  (g.recorded_in.filter (fun e => substrInS "楚辞" e.2 || substrInS "诗经" e.2)).map
    (fun e => e.1)

/-- `PlantQASystem.ALIAS_MAP` (class attribute; Python dict iteration
follows insertion order). -/
def ALIAS_MAP : List (String × String) :=
  [("菊花", "菊"), ("梅花", "梅"), ("兰花", "兰"), ("竹子", "竹"),
   ("荷花", "荷"), ("莲花", "荷"), ("桂花", "桂"), ("牡丹花", "牡丹"),
   ("杜鹃花", "杜鹃"), ("水仙花", "水仙"), ("艾草", "艾"), ("菖蒲叶", "菖蒲"),
   ("松树", "松"), ("柏树", "柏"), ("柳树", "柳"), ("桑树", "桑"),
   ("茶树", "茶"), ("桃树", "桃"), ("银杏树", "银杏"), ("梧桐树", "梧桐")]

/-- `_get_all_plants`: all plant names, `ORDER BY p.name`. -/
def get_all_plants (g : Graph) : List String :=
  sortStrings (g.plants.map (fun p => p.name))

/-- The 8 question types of `_identify_question_type`. -/
inductive QType where
  | symbol | medicinal | distribution | folk | festival | literature
  | taxonomy | basic
deriving DecidableEq

/-- `_identify_question_type`: first keyword group contained in the
lower-cased question wins; default `basic`. -/
def identify_question_type (question : String) : QType :=
  let q := pyLower question
  if List.any ["象征", "寓意", "代表", "含义", "文化"] (fun k => substrInS k q) then
    QType.symbol
  else if List.any ["药用", "功效", "药效", "治疗", "治病"] (fun k => substrInS k q) then
    QType.medicinal
  else if List.any ["分布", "哪里", "在哪", "产地", "生长"] (fun k => substrInS k q) then
    QType.distribution
  else if List.any ["民俗", "用途", "使用", "怎么用"] (fun k => substrInS k q) then
    QType.folk
  else if List.any ["节日", "端午", "春节", "重阳", "中秋", "清明"] (fun k => substrInS k q) then
    QType.festival
  else if List.any ["文献", "记载", "诗经", "楚辞", "诗词"] (fun k => substrInS k q) then
    QType.literature
  else if List.any ["科", "属", "分类"] (fun k => substrInS k q) then
    QType.taxonomy
  else
    QType.basic

/-- `_query_symbol`. -/
def query_symbol (g : Graph) (plant : String) : String :=
  let symbols := symbolsOf g plant
  if !symbols.isEmpty then
    "🌿 " ++ plant ++ "的文化象征：\n" ++ String.intercalate "、" symbols
  else
    match findPlant g plant with
    | some record =>
      if truthy record.cultural_symbol then
        "🌿 " ++ plant ++ "的文化象征：\n" ++ pyStr record.cultural_symbol
      else "🌿 " ++ plant ++ "的文化象征信息暂缺。"
    | none => "🌿 " ++ plant ++ "的文化象征信息暂缺。"

/-- `_query_medicinal` (flat fallback is skipped when the property is
falsy or equals the sentinel `无药用记载`). -/
def query_medicinal (g : Graph) (plant : String) : String :=
  let effects := medicinalOf g plant
  if !effects.isEmpty then
    "💊 " ++ plant ++ "的药用价值：\n" ++ String.intercalate "、" effects
  else
    match findPlant g plant with
    | some record =>
      if truthy record.medicinal_value && !(record.medicinal_value == some "无药用记载") then
        "💊 " ++ plant ++ "的药用价值：\n" ++ pyStr record.medicinal_value
      else "💊 " ++ plant ++ "的药用价值信息暂缺。"
    | none => "💊 " ++ plant ++ "的药用价值信息暂缺。"

/-- `_query_distribution`. -/
def query_distribution (g : Graph) (plant : String) : String :=
  match findPlant g plant with
  | some record =>
    if truthy record.distribution then
      "🗺️ " ++ plant ++ "的分布区域：\n" ++ pyStr record.distribution
    else "🗺️ " ++ plant ++ "的分布信息暂缺。"
  | none => "🗺️ " ++ plant ++ "的分布信息暂缺。"

/-- `_query_folk`. -/
def query_folk (g : Graph) (plant : String) : String :=
  match findPlant g plant with
  | some record =>
    if truthy record.folk_use then
      "🏮 " ++ plant ++ "的民俗用途：\n" ++ pyStr record.folk_use
    else "🏮 " ++ plant ++ "的民俗用途信息暂缺。"
  | none => "🏮 " ++ plant ++ "的民俗用途信息暂缺。"

/-- `_query_festival`. -/
def query_festival (g : Graph) (plant : String) : String :=
  let festivals := festivalsOf g plant
  if !festivals.isEmpty then
    "🎉 " ++ plant ++ "相关的节日：\n" ++ String.intercalate "、" festivals
  else
    match findPlant g plant with
    | some record =>
      if truthy record.festival then
        "🎉 " ++ plant ++ "相关的节日：\n" ++ pyStr record.festival
      else "🎉 " ++ plant ++ "的节日信息暂缺。"
    | none => "🎉 " ++ plant ++ "的节日信息暂缺。"

/-- `_query_literature`. -/
def query_literature (g : Graph) (plant : String) : String :=
  let literatures := literatureOf g plant
  if !literatures.isEmpty then
    "📖 " ++ plant ++ "的文献记载：\n" ++ String.intercalate "、" literatures
  else
    match findPlant g plant with
    | some record =>
      if truthy record.literature_source then
        "📖 " ++ plant ++ "的文献出处：\n" ++ pyStr record.literature_source
      else "📖 " ++ plant ++ "的文献信息暂缺。"
    | none => "📖 " ++ plant ++ "的文献信息暂缺。"

/-- `_query_taxonomy`. -/
def query_taxonomy (g : Graph) (plant : String) : String :=
  match findPlant g plant with
  | some record =>
    "🌱 " ++ plant ++ "（" ++ pyStr record.latin_name ++ "）\n🏷️ 科：" ++
      pyStr record.family ++ "  属：" ++ pyStr record.genus
  | none => "🌱 " ++ plant ++ "的科属信息暂缺。"

/-- `_query_basic`: flat-property aggregation; the distribution and
cultural-symbol lines are appended only when truthy. -/
def query_basic (g : Graph) (plant : String) : String :=
  match findPlant g plant with
  | some record =>
    let info := "🌿 " ++ plant ++ "（" ++ pyStr record.latin_name ++ "）\n"
    let info := info ++ "🏷️ 科：" ++ pyStr record.family ++ "  属：" ++
      pyStr record.genus ++ "\n"
    let info := if truthy record.distribution then
      info ++ "🗺️ 分布：" ++ pyStr record.distribution ++ "\n" else info
    let info := if truthy record.cultural_symbol then
      info ++ "✨ 文化象征：" ++ pyStr record.cultural_symbol else info
    info
  | none => "🌿 " ++ plant ++ " 的信息暂缺。"

/-- `_answer_for_plant`'s dispatch on the identified question type. -/
def dispatch (g : Graph) (plant : String) (t : QType) : String :=
  match t with
  | QType.symbol => query_symbol g plant
  | QType.medicinal => query_medicinal g plant
  | QType.distribution => query_distribution g plant
  | QType.folk => query_folk g plant
  | QType.festival => query_festival g plant
  | QType.literature => query_literature g plant
  | QType.taxonomy => query_taxonomy g plant
  | QType.basic => query_basic g plant

/-- `_answer_for_plant`. -/
def answer_for_plant (g : Graph) (plant question : String) : String :=
  dispatch g plant (identify_question_type question)

/-- Outcome of `answer`'s entity-resolution steps 1–4. -/
inductive Resolution where
  | plant (name : String)
  | notCatalogued (a : String)
  | general
deriving DecidableEq

/-- Steps 1–4 of `answer`: direct substring containment over the sorted
name list, then alias containment in map order, then tokenized
fallback, else general. -/
def resolveQuestion (plant_names : List String) (tok : String → List String)
    (question : String) : Resolution :=
  match plant_names.find? (fun plant => substrInS plant question) with
  | some plant => Resolution.plant plant
  | none =>
    match ALIAS_MAP.find? (fun pr => substrInS pr.1 question) with
    | some pr =>
      if plant_names.contains pr.2 then Resolution.plant pr.2
      else Resolution.notCatalogued pr.1
    | none =>
      match (tok question).find? (fun word => plant_names.contains word) with
      | some word => Resolution.plant word
      | none => Resolution.general

/-- `_handle_general_question`. -/
def handle_general_question (g : Graph) (question : String) : String :=
  let q := pyLower question
  if List.any ["所有植物", "有哪些植物", "植物列表"] (fun k => substrInS k q) then
    "📚 知识库中共有 " ++ toString (get_all_plants g).length ++ " 种植物：\n" ++
      String.intercalate "、" (get_all_plants g)
  else if substrInS "端午" q then
    let ps := festival_query g "端午"
    if ps.isEmpty then "🎋 端午节相关植物：艾、菖蒲、蒜"
    else "🎋 端午节相关植物：" ++ String.intercalate "、" ps
  else if substrInS "春节" q then "🧧 春节相关植物：橘、桃、水仙"
  else if substrInS "重阳" q then "🏔️ 重阳节相关植物：菊、茱萸"
  else if substrInS "中秋" q then "🌕 中秋节相关植物：桂"
  else if substrInS "清明" q then "🌧️ 清明节相关植物：柳、杜鹃、柏"
  else if substrInS "楚辞" q || substrInS "诗经" q then
    let ps := lit_query g
    if ps.isEmpty then "❓ 请明确指定植物名称（如：兰有什么文化象征？）"
    else "📜 《楚辞》《诗经》中记载的植物：" ++
      String.intercalate "、" (ps.take 10) ++ "……"
  else "❓ 请明确指定植物名称（如：兰有什么文化象征？）"

/-- `answer`: resolve the entity, then dispatch, short-circuit with the
not-catalogued message, or fall to the general handler.  `tok` is the
external `jieba.lcut` tokenizer, treated as an oracle. -/
def answer (g : Graph) (tok : String → List String) (question : String) : String :=
  match resolveQuestion (get_all_plants g) tok question with
  | Resolution.plant p => answer_for_plant g p question
  | Resolution.notCatalogued a => "❌ 暂未收录该种植物（" ++ a ++ "）"
  | Resolution.general => handle_general_question g question

/-- The structured record returned by `get_plant_detail`. -/
structure PlantDetail where
  name : String
  latin : Option String
  family : Option String
  genus : Option String
  distribution : String
  folk_use : String
  ecological : String
  cultural_symbol : String
  symbols : List String
  medicinal : List String
  literature : List String
  festivals : List String
deriving DecidableEq

/-- The record `get_plant_detail` builds for a matched plant node `p`:
the four descriptive flat attributes get an `or`-placeholder, the
taxonomy attributes pass through; the four edge collections are
`collect(DISTINCT …)`. -/
def detailOf (g : Graph) (plant_name : String) (p : Plant) : PlantDetail where
  name := p.name
  latin := p.latin_name
  family := p.family
  genus := p.genus
  distribution := orElseStr p.distribution "暂无分布信息"
  folk_use := orElseStr p.folk_use "暂无民俗用途"
  ecological := orElseStr p.ecological_meaning "暂无生态意义"
  cultural_symbol := orElseStr p.cultural_symbol "暂无文化象征"
  symbols := distinctList (symbolsOf g plant_name)
  medicinal := distinctList (medicinalOf g plant_name)
  literature := distinctList (literatureOf g plant_name)
  festivals := distinctList (festivalsOf g plant_name)

/-- `get_plant_detail`: one composed lookup returning `detailOf`, or
the absent-result signal when no plant node matches. -/
def get_plant_detail (g : Graph) (plant_name : String) : Option PlantDetail :=
  match findPlant g plant_name with
  | none => none
  | some p => some (detailOf g plant_name p)

/-- Specification-side classifier: the intent keyword groups as an
ordered table, first group with a contained keyword wins, default
`basic`.  Used to state the refinement claim about
`identify_question_type`. -/
def intentTable : List (QType × List String) :=
  [(QType.symbol, ["象征", "寓意", "代表", "含义", "文化"]),
   (QType.medicinal, ["药用", "功效", "药效", "治疗", "治病"]),
   (QType.distribution, ["分布", "哪里", "在哪", "产地", "生长"]),
   (QType.folk, ["民俗", "用途", "使用", "怎么用"]),
   (QType.festival, ["节日", "端午", "春节", "重阳", "中秋", "清明"]),
   (QType.literature, ["文献", "记载", "诗经", "楚辞", "诗词"]),
   (QType.taxonomy, ["科", "属", "分类"])]

/-- Specification-side classifier (see `intentTable`). -/
def classifySpec (question : String) : QType :=
  match intentTable.find? (fun gp => gp.2.any (fun k => substrInS k (pyLower question))) with
  | some gp => gp.1
  | none => QType.basic

/-- A plant record all of whose optional properties are null. -/
def mkPlant (n : String) : Plant :=
  { name := n, latin_name := none, family := none, genus := none,
    distribution := none, folk_use := none, ecological_meaning := none,
    cultural_symbol := none, medicinal_value := none,
    literature_source := none, festival := none }

/-- The empty graph (for concrete instantiations). -/
def gEmpty : Graph :=
  { plants := [], has_symbol := [], has_medicinal := [], recorded_in := [],
    related_to_festival := [] }

/-- Trivial tokenizer instantiation for concrete witnesses. -/
def tok0 : String → List String := fun _ => []

/-- Entity set where one canonical name (兰) is a substring of another
(玉兰). -/
def gC1 : Graph := { gEmpty with plants := [mkPlant "玉兰", mkPlant "兰"] }

/-- Singleton entity set. -/
def gC1w : Graph := { gEmpty with plants := [mkPlant "梅"] }

/-- Entity set where canonical 莲 is a substring of the alias 莲花 whose
target is 荷. -/
def gC2 : Graph := { gEmpty with plants := [mkPlant "荷", mkPlant "莲"] }

/-- Entity set containing only 荷, the target of alias 莲花. -/
def gC2w : Graph := { gEmpty with plants := [mkPlant "荷"] }

/-- Entity set containing only 荷. -/
def gC3 : Graph := { gEmpty with plants := [mkPlant "荷"] }

/-- Entity set containing only 荷 (witness instantiation). -/
def gC3w : Graph := { gEmpty with plants := [mkPlant "荷"] }

/-- Entity 梅 with no edges and all-null properties. -/
def gC4 : Graph := { gEmpty with plants := [mkPlant "梅"] }

/-- Entity 梅 with all-null properties. -/
def gC6 : Graph := { gEmpty with plants := [mkPlant "梅"] }

/-- Same plant nodes as `gC6` but with a symbol edge added. -/
def gC6b : Graph := { gC6 with has_symbol := [("梅", "高洁")] }

/-- Entity 梅 with duplicated symbol edges (exercises `DISTINCT`). -/
def gC7 : Graph :=
  { gEmpty with
    plants := [mkPlant "梅"]
    has_symbol := [("梅", "坚韧"), ("梅", "坚韧"), ("梅", "高洁")] }

/-- Entity 梅 with a null latin name. -/
def gC7c : Graph := { gEmpty with plants := [mkPlant "梅"] }

/-- One entity recorded in 诗经 (a single literature match). -/
def gC8 : Graph :=
  { gEmpty with
    plants := [mkPlant "荷"]
    recorded_in := [("荷", "诗经")] }

/-- A graph differing from `gEmpty` in plants and festival edges. -/
def gC10b : Graph :=
  { gEmpty with
    plants := [mkPlant "桂"]
    related_to_festival := [("菊", "重阳节")] }

/-- Entity set containing only 菊, the target of alias 菊花 (the
target is itself a substring of the alias key). -/
def gC2w2 : Graph := { gEmpty with plants := [mkPlant "菊"] }

/-- Plant 梅 with a distribution but no cultural symbol. -/
def pC6d : Plant := { mkPlant "梅" with distribution := some "江南" }

/-- Plant 梅 with a cultural symbol but no distribution. -/
def pC6s : Plant := { mkPlant "梅" with cultural_symbol := some "坚韧" }

/-- Plant 梅 with both a distribution and a cultural symbol. -/
def pC6b : Plant :=
  { mkPlant "梅" with distribution := some "江南", cultural_symbol := some "坚韧" }

/-- Graph holding `pC6d`. -/
def gC6d : Graph := { gEmpty with plants := [pC6d] }

/-- Graph holding `pC6s`. -/
def gC6s : Graph := { gEmpty with plants := [pC6s] }

/-- Graph holding `pC6b`. -/
def gC6both : Graph := { gEmpty with plants := [pC6b] }

/-!  Helper lemmas  -/

theorem isPrefixL_refl (l : List Char) : isPrefixL l l = true := by
  induction l with
  | nil => rfl
  | cons a as ih => simp [isPrefixL, ih]

theorem substr_refl (s : String) : substrInS s s = true := by
  unfold substrInS
  cases h : s.data with
  | nil => rfl
  | cons c cs => simp [substrL, isPrefixL_refl]

theorem data_append_eq (s t : String) : (s ++ t).data = s.data ++ t.data := rfl

theorem append_ne_empty_left (s t : String) (h : s.data ≠ []) : s ++ t ≠ "" := by
  intro he
  apply h
  have hd : s.data ++ t.data = [] := by rw [← data_append_eq, he]
  exact (List.append_eq_nil.mp hd).1

theorem find?_first_of_unique {α : Type} {p : α → Bool} {l : List α} {n : α}
    (hmem : n ∈ l) (hpn : p n = true)
    (huniq : ∀ m ∈ l, p m = true → m = n) :
    l.find? p = some n := by
  induction l with
  | nil => cases hmem
  | cons x xs ih =>
    by_cases hx : p x = true
    · rw [List.find?_cons_of_pos _ hx, huniq x (List.mem_cons_self x xs) hx]
    · rw [List.find?_cons_of_neg _ hx]
      apply ih
      · rcases List.mem_cons.mp hmem with h | h
        · exact absurd (h ▸ hpn) hx
        · exact h
      · intro m hm hpm
        exact huniq m (List.mem_cons_of_mem _ hm) hpm

theorem alias_first_self :
    ALIAS_MAP.all
      (fun pr => decide (ALIAS_MAP.find? (fun pr2 => substrInS pr2.1 pr.1) = some pr)) = true := by
  decide

theorem orElse_of_not_truthy (o : Option String) (d : String)
    (h : truthy o = false) : orElseStr o d = d := by
  cases o with
  | none => rfl
  | some s =>
    simp [truthy] at h
    simp [orElseStr, h]

theorem orElse_ne_empty (o : Option String) (d : String) (hd : d ≠ "") :
    orElseStr o d ≠ "" := by
  cases o with
  | none => simpa [orElseStr]
  | some s =>
    simp only [orElseStr]
    split
    · exact hd
    · rename_i h
      simpa using fun he => h (by simp [he])

/-!  Claim theorems  -/

/-- C1 (counterexample): direct substring resolution is not the
identity on canonical names when one canonical name is a substring of
another.  With the startup (lexicographic) name list of `gC1`, namely
[兰, 玉兰], the question 玉兰 — itself a canonical name — resolves to
the entity 兰, not to 玉兰. -/
theorem c1_counterexample :
    get_all_plants gC1 = ["兰", "玉兰"] ∧
    "玉兰" ∈ get_all_plants gC1 ∧
    resolveQuestion (get_all_plants gC1) tok0 "玉兰" = Resolution.plant "兰" ∧
    Resolution.plant "兰" ≠ Resolution.plant "玉兰" := by
  decide

/-- C1 (amended): for every canonical entity name `n`, resolving the
question equal to `n` yields entity `n` itself, provided no other
canonical name in the entity set is a substring of `n`; the result is
independent of the tokenizer. -/
theorem c1_amended (g : Graph) (tok : String → List String) (n : String)
    (hmem : n ∈ get_all_plants g)
    (huniq : ∀ m ∈ get_all_plants g, substrInS m n = true → m = n) :
    resolveQuestion (get_all_plants g) tok n = Resolution.plant n := by
  have hsome : (get_all_plants g).find? (fun plant => substrInS plant n) = some n :=
    find?_first_of_unique hmem (substr_refl n) huniq
  simp [resolveQuestion, hsome]

/-- C1 (witness): `c1_amended` applied to the singleton entity set
containing 梅. -/
theorem c1_witness :
    resolveQuestion (get_all_plants gC1w) tok0 "梅" = Resolution.plant "梅" :=
  c1_amended gC1w tok0 "梅" (by decide) (by decide)

/-- C2 (counterexample): alias resolution does not reach the alias's
target when another canonical name is a substring of the alias: with
entities 荷 and 莲 and the alias 莲花 → 荷 (whose target 荷 is
present), the question 莲花 resolves to 莲 via the direct-containment
step, not to 荷. -/
theorem c2_counterexample :
    ("莲花", "荷") ∈ ALIAS_MAP ∧
    "荷" ∈ get_all_plants gC2 ∧
    resolveQuestion (get_all_plants gC2) tok0 "莲花" = Resolution.plant "莲" ∧
    Resolution.plant "莲" ≠ Resolution.plant "荷" := by
  decide

/-- C2 (amended): for every alias `a → c` in the alias map with `c`
present in the entity set, the question equal to `a` resolves to `c`,
provided no canonical name other than `c` in the entity set is a
substring of `a` (if a canonical name is contained in `a`, it is `c`
itself and the direct step already resolves to `c`); independent of
the tokenizer. -/
theorem c2_amended (g : Graph) (tok : String → List String) (a c : String)
    (hmap : (a, c) ∈ ALIAS_MAP)
    (hc : c ∈ get_all_plants g)
    (hno : ∀ m ∈ get_all_plants g, substrInS m a = true → m = c) :
    resolveQuestion (get_all_plants g) tok a = Resolution.plant c := by
  cases hfind : (get_all_plants g).find? (fun plant => substrInS plant a) with
  | some m =>
    have hp := List.find?_some hfind
    have hm := List.mem_of_find?_eq_some hfind
    have hmc : m = c := hno m hm hp
    simp [resolveQuestion, hfind, hmc]
  | none =>
    have h2 : ALIAS_MAP.find? (fun pr => substrInS pr.1 a) = some (a, c) :=
      of_decide_eq_true (List.all_eq_true.mp alias_first_self (a, c) hmap)
    have h3 : (get_all_plants g).contains c = true := List.elem_iff.mpr hc
    simp [resolveQuestion, hfind, h2, h3, hc]

/-- C2 (witness): `c2_amended` on the alias 莲花 → 荷 with entity set
containing exactly 荷 (target not a substring of the alias, resolved by
the alias step) and on the alias 菊花 → 菊 with entity set containing
exactly 菊 (target a substring of the alias, resolved by the direct
step). -/
theorem c2_witness :
    resolveQuestion (get_all_plants gC2w) tok0 "莲花" = Resolution.plant "荷" ∧
    resolveQuestion (get_all_plants gC2w2) tok0 "菊花" = Resolution.plant "菊" :=
  ⟨c2_amended gC2w tok0 "莲花" "荷" (by decide) (by decide) (by decide),
   c2_amended gC2w2 tok0 "菊花" "菊" (by decide) (by decide) (by decide)⟩

/-- C3 (counterexample): the question 莲花艾草 contains the alias 艾草
whose target 艾 is absent from the entity set of `gC3`, and no
canonical name is matched by the direct-containment step — yet `answer`
does not return the not-catalogued message naming 艾草: the earlier
alias 莲花 (in map order) has its target 荷 present and wins. -/
theorem c3_counterexample :
    substrInS "艾草" "莲花艾草" = true ∧
    ("艾草", "艾") ∈ ALIAS_MAP ∧
    ¬ ("艾" ∈ get_all_plants gC3) ∧
    (get_all_plants gC3).find? (fun plant => substrInS plant "莲花艾草") = none ∧
    resolveQuestion (get_all_plants gC3) tok0 "莲花艾草" = Resolution.plant "荷" ∧
    answer gC3 tok0 "莲花艾草" ≠ "❌ 暂未收录该种植物（艾草）" := by
  decide

/-- C3 (amended): if no canonical name is contained in the question and
the first alias (in map order) contained in the question has a target
absent from the entity set, `answer` returns the fixed not-catalogued
message naming that alias — for every graph and tokenizer (no
fall-through to the tokenized fallback or the general handler), and
that message differs from the general handler's unresolved prompt. -/
theorem c3_amended (g : Graph) (tok : String → List String) (q a r : String)
    (h1 : (get_all_plants g).find? (fun plant => substrInS plant q) = none)
    (h2 : ALIAS_MAP.find? (fun pr => substrInS pr.1 q) = some (a, r))
    (h3 : (get_all_plants g).contains r = false) :
    resolveQuestion (get_all_plants g) tok q = Resolution.notCatalogued a ∧
    Resolution.notCatalogued a ≠ Resolution.general ∧
    answer g tok q = "❌ 暂未收录该种植物（" ++ a ++ "）" ∧
    "❌ 暂未收录该种植物（" ++ a ++ "）" ≠
      "❓ 请明确指定植物名称（如：兰有什么文化象征？）" := by
  have h3m : ¬ r ∈ get_all_plants g := by
    intro hm
    have hcv : (get_all_plants g).contains r = true := List.elem_iff.mpr hm
    rw [h3] at hcv
    cases hcv
  refine ⟨?_, fun h => Resolution.noConfusion h, ?_, ?_⟩
  · simp [resolveQuestion, h1, h2, h3, h3m]
  · simp [answer, resolveQuestion, h1, h2, h3, h3m]
  · intro he
    have hhead : ("❌ 暂未收录该种植物（" ++ a ++ "）").data.head? = some '❌' := rfl
    rw [he] at hhead
    exact absurd hhead (by decide)

/-- C3 (witness): `c3_amended` on question 艾草 (the alias itself) with
entity set containing only 荷. -/
theorem c3_witness :
    resolveQuestion (get_all_plants gC3w) tok0 "艾草" = Resolution.notCatalogued "艾草" ∧
    Resolution.notCatalogued "艾草" ≠ Resolution.general ∧
    answer gC3w tok0 "艾草" = "❌ 暂未收录该种植物（" ++ "艾草" ++ "）" ∧
    "❌ 暂未收录该种植物（" ++ "艾草" ++ "）" ≠
      "❓ 请明确指定植物名称（如：兰有什么文化象征？）" :=
  c3_amended gC3w tok0 "艾草" "艾草" "艾" (by decide) (by decide) (by decide)

/-- C4: for every graph, entity and intent, `dispatch` returns a
non-empty string; and whenever the relation-edge query is empty and the
flat fallback field is falsy (for medicinal, also when it equals the
sentinel 无药用记载), the result is the fixed intent-specific
information-not-yet-available message. -/
theorem c4_dispatch_nonempty (g : Graph) (plant : String) :
    (∀ t : QType, dispatch g plant t ≠ "") ∧
    (∀ record : Plant, symbolsOf g plant = [] → findPlant g plant = some record →
      truthy record.cultural_symbol = false →
      dispatch g plant QType.symbol = "🌿 " ++ plant ++ "的文化象征信息暂缺。") ∧
    (∀ record : Plant, medicinalOf g plant = [] → findPlant g plant = some record →
      (truthy record.medicinal_value = false ∨
        record.medicinal_value = some "无药用记载") →
      dispatch g plant QType.medicinal = "💊 " ++ plant ++ "的药用价值信息暂缺。") ∧
    (∀ record : Plant, findPlant g plant = some record →
      truthy record.distribution = false →
      dispatch g plant QType.distribution = "🗺️ " ++ plant ++ "的分布信息暂缺。") ∧
    (∀ record : Plant, findPlant g plant = some record →
      truthy record.folk_use = false →
      dispatch g plant QType.folk = "🏮 " ++ plant ++ "的民俗用途信息暂缺。") ∧
    (∀ record : Plant, festivalsOf g plant = [] → findPlant g plant = some record →
      truthy record.festival = false →
      dispatch g plant QType.festival = "🎉 " ++ plant ++ "的节日信息暂缺。") ∧
    (∀ record : Plant, literatureOf g plant = [] → findPlant g plant = some record →
      truthy record.literature_source = false →
      dispatch g plant QType.literature = "📖 " ++ plant ++ "的文献信息暂缺。") := by
  refine ⟨?_, ?_, ?_, ?_, ?_, ?_, ?_⟩
  · intro t
    cases t <;>
      simp only [dispatch, query_symbol, query_medicinal, query_distribution,
        query_folk, query_festival, query_literature, query_taxonomy, query_basic] <;>
      (repeat' split) <;>
      (apply append_ne_empty_left; exact List.cons_ne_nil _ _)
  · intro record h1 h2 h3
    simp [dispatch, query_symbol, h1, h2, h3]
  · intro record h1 h2 h3
    rcases h3 with h3 | h3 <;> simp [dispatch, query_medicinal, h1, h2, h3]
  · intro record h2 h3
    simp [dispatch, query_distribution, h2, h3]
  · intro record h2 h3
    simp [dispatch, query_folk, h2, h3]
  · intro record h1 h2 h3
    simp [dispatch, query_festival, h1, h2, h3]
  · intro record h1 h2 h3
    simp [dispatch, query_literature, h1, h2, h3]

/-- C4 (witness): the dispatch guarantees of `c4_dispatch_nonempty`
instantiated on the edgeless graph `gC4` whose only plant 梅 has
all-null properties. -/
theorem c4_witness :
    dispatch gC4 "梅" QType.symbol ≠ "" ∧
    dispatch gC4 "梅" QType.symbol = "🌿 " ++ "梅" ++ "的文化象征信息暂缺。" ∧
    dispatch gC4 "梅" QType.medicinal = "💊 " ++ "梅" ++ "的药用价值信息暂缺。" ∧
    dispatch gC4 "梅" QType.distribution = "🗺️ " ++ "梅" ++ "的分布信息暂缺。" ∧
    dispatch gC4 "梅" QType.folk = "🏮 " ++ "梅" ++ "的民俗用途信息暂缺。" ∧
    dispatch gC4 "梅" QType.festival = "🎉 " ++ "梅" ++ "的节日信息暂缺。" ∧
    dispatch gC4 "梅" QType.literature = "📖 " ++ "梅" ++ "的文献信息暂缺。" :=
  ⟨(c4_dispatch_nonempty gC4 "梅").1 QType.symbol,
   (c4_dispatch_nonempty gC4 "梅").2.1 (mkPlant "梅") (by decide) (by decide) (by decide),
   (c4_dispatch_nonempty gC4 "梅").2.2.1 (mkPlant "梅") (by decide) (by decide)
     (Or.inl (by decide)),
   (c4_dispatch_nonempty gC4 "梅").2.2.2.1 (mkPlant "梅") (by decide) (by decide),
   (c4_dispatch_nonempty gC4 "梅").2.2.2.2.1 (mkPlant "梅") (by decide) (by decide),
   (c4_dispatch_nonempty gC4 "梅").2.2.2.2.2.1 (mkPlant "梅") (by decide) (by decide)
     (by decide),
   (c4_dispatch_nonempty gC4 "梅").2.2.2.2.2.2 (mkPlant "梅") (by decide) (by decide)
     (by decide)⟩

/-- C5: the intent classifier is a total function into the 8 fixed
intents and implements the fixed priority order over the keyword-group
table, defaulting to basic-info: `identify_question_type` agrees with
the table-driven specification `classifySpec` on every input string. -/
theorem c5_classifier_matches_table (q : String) :
    identify_question_type q = classifySpec q := by
  cases h1 : List.any ["象征", "寓意", "代表", "含义", "文化"]
      (fun k => substrInS k (pyLower q)) with
  | true => simp [identify_question_type, classifySpec, intentTable, List.find?_cons, h1]
  | false =>
  cases h2 : List.any ["药用", "功效", "药效", "治疗", "治病"]
      (fun k => substrInS k (pyLower q)) with
  | true =>
    simp [identify_question_type, classifySpec, intentTable, List.find?_cons, h1, h2]
  | false =>
  cases h3 : List.any ["分布", "哪里", "在哪", "产地", "生长"]
      (fun k => substrInS k (pyLower q)) with
  | true =>
    simp [identify_question_type, classifySpec, intentTable, List.find?_cons, h1, h2, h3]
  | false =>
  cases h4 : List.any ["民俗", "用途", "使用", "怎么用"]
      (fun k => substrInS k (pyLower q)) with
  | true =>
    simp [identify_question_type, classifySpec, intentTable, List.find?_cons,
      h1, h2, h3, h4]
  | false =>
  cases h5 : List.any ["节日", "端午", "春节", "重阳", "中秋", "清明"]
      (fun k => substrInS k (pyLower q)) with
  | true =>
    simp [identify_question_type, classifySpec, intentTable, List.find?_cons,
      h1, h2, h3, h4, h5]
  | false =>
  cases h6 : List.any ["文献", "记载", "诗经", "楚辞", "诗词"]
      (fun k => substrInS k (pyLower q)) with
  | true =>
    simp [identify_question_type, classifySpec, intentTable, List.find?_cons,
      h1, h2, h3, h4, h5, h6]
  | false =>
  cases h7 : List.any ["科", "属", "分类"] (fun k => substrInS k (pyLower q)) with
  | true =>
    simp [identify_question_type, classifySpec, intentTable, List.find?_cons,
      h1, h2, h3, h4, h5, h6, h7]
  | false =>
    simp [identify_question_type, classifySpec, intentTable, List.find?_cons,
      List.find?_nil, h1, h2, h3, h4, h5, h6, h7]

/-- C6 (counterexample): the basic-info answer does not omit every
empty sub-field: for the plant 梅 of `gC6` whose family (and other
taxonomy fields) are null, the produced string still renders the family
sub-field (as `科：None`) instead of omitting it. -/
theorem c6_counterexample :
    (findPlant gC6 "梅").map (fun p => p.family) = some none ∧
    query_basic gC6 "梅" = "🌿 梅（None）\n🏷️ 科：None  属：None\n" ∧
    substrInS "科：None" (query_basic gC6 "梅") = true := by
  decide

/-- C6 (amended): the basic-info answer is computed from the plant
nodes alone (no relation-edge query: it is invariant under any change
of the edge collections), and it aggregates the taxonomy, distribution
and cultural-symbol fields into one multi-line string in which the
distribution and cultural-symbol sub-fields are each omitted exactly
when empty (all four combinations) — while the taxonomy sub-fields
(latin name, family, genus) are always rendered, even when empty. -/
theorem c6_amended :
    (∀ (g g2 : Graph) (plant : String), g.plants = g2.plants →
      query_basic g plant = query_basic g2 plant) ∧
    (∀ (g : Graph) (plant : String) (record : Plant),
      findPlant g plant = some record →
      truthy record.distribution = false → truthy record.cultural_symbol = false →
      query_basic g plant =
        ("🌿 " ++ plant ++ "（" ++ pyStr record.latin_name ++ "）\n") ++
          "🏷️ 科：" ++ pyStr record.family ++ "  属：" ++ pyStr record.genus ++ "\n") ∧
    (∀ (g : Graph) (plant : String) (record : Plant),
      findPlant g plant = some record →
      truthy record.distribution = true → truthy record.cultural_symbol = false →
      query_basic g plant =
        (("🌿 " ++ plant ++ "（" ++ pyStr record.latin_name ++ "）\n") ++
          "🏷️ 科：" ++ pyStr record.family ++ "  属：" ++ pyStr record.genus ++ "\n") ++
          "🗺️ 分布：" ++ pyStr record.distribution ++ "\n") ∧
    (∀ (g : Graph) (plant : String) (record : Plant),
      findPlant g plant = some record →
      truthy record.distribution = false → truthy record.cultural_symbol = true →
      query_basic g plant =
        (("🌿 " ++ plant ++ "（" ++ pyStr record.latin_name ++ "）\n") ++
          "🏷️ 科：" ++ pyStr record.family ++ "  属：" ++ pyStr record.genus ++ "\n") ++
          "✨ 文化象征：" ++ pyStr record.cultural_symbol) ∧
    (∀ (g : Graph) (plant : String) (record : Plant),
      findPlant g plant = some record →
      truthy record.distribution = true → truthy record.cultural_symbol = true →
      query_basic g plant =
        ((("🌿 " ++ plant ++ "（" ++ pyStr record.latin_name ++ "）\n") ++
          "🏷️ 科：" ++ pyStr record.family ++ "  属：" ++ pyStr record.genus ++ "\n") ++
          "🗺️ 分布：" ++ pyStr record.distribution ++ "\n") ++
          "✨ 文化象征：" ++ pyStr record.cultural_symbol) := by
  refine ⟨?_, ?_, ?_, ?_, ?_⟩
  · intro g g2 plant hp
    simp [query_basic, findPlant, hp]
  · intro g plant record hf hd hs
    simp [query_basic, hf, hd, hs]
  · intro g plant record hf hd hs
    simp [query_basic, hf, hd, hs]
  · intro g plant record hf hd hs
    simp [query_basic, hf, hd, hs]
  · intro g plant record hf hd hs
    simp [query_basic, hf, hd, hs]

/-- C6 (witness): `c6_amended` instantiated on `gC6` (all-null plant 梅)
against `gC6b` (same plant nodes, extra symbol edge), and on the three
graphs `gC6d`, `gC6s`, `gC6both` exercising the remaining
empty/non-empty combinations of distribution and cultural symbol. -/
theorem c6_witness :
    query_basic gC6 "梅" = query_basic gC6b "梅" ∧
    query_basic gC6 "梅" =
      ("🌿 " ++ "梅" ++ "（" ++ pyStr (mkPlant "梅").latin_name ++ "）\n") ++
        "🏷️ 科：" ++ pyStr (mkPlant "梅").family ++ "  属：" ++
        pyStr (mkPlant "梅").genus ++ "\n" ∧
    query_basic gC6d "梅" =
      (("🌿 " ++ "梅" ++ "（" ++ pyStr pC6d.latin_name ++ "）\n") ++
        "🏷️ 科：" ++ pyStr pC6d.family ++ "  属：" ++ pyStr pC6d.genus ++ "\n") ++
        "🗺️ 分布：" ++ pyStr pC6d.distribution ++ "\n" ∧
    query_basic gC6s "梅" =
      (("🌿 " ++ "梅" ++ "（" ++ pyStr pC6s.latin_name ++ "）\n") ++
        "🏷️ 科：" ++ pyStr pC6s.family ++ "  属：" ++ pyStr pC6s.genus ++ "\n") ++
        "✨ 文化象征：" ++ pyStr pC6s.cultural_symbol ∧
    query_basic gC6both "梅" =
      ((("🌿 " ++ "梅" ++ "（" ++ pyStr pC6b.latin_name ++ "）\n") ++
        "🏷️ 科：" ++ pyStr pC6b.family ++ "  属：" ++ pyStr pC6b.genus ++ "\n") ++
        "🗺️ 分布：" ++ pyStr pC6b.distribution ++ "\n") ++
        "✨ 文化象征：" ++ pyStr pC6b.cultural_symbol :=
  ⟨c6_amended.1 gC6 gC6b "梅" (by decide),
   c6_amended.2.1 gC6 "梅" (mkPlant "梅") (by decide) (by decide) (by decide),
   c6_amended.2.2.1 gC6d "梅" pC6d (by decide) (by decide) (by decide),
   c6_amended.2.2.2.1 gC6s "梅" pC6s (by decide) (by decide) (by decide),
   c6_amended.2.2.2.2 gC6both "梅" pC6b (by decide) (by decide) (by decide)⟩

/-- C7 (counterexample): `get_plant_detail` does not substitute the
"not available" placeholder for every empty flat attribute: for the
plant 梅 of `gC7c` with a null latin name, the returned record's latin
field stays absent (no placeholder string), while the distribution
field does receive its placeholder. -/
theorem c7_counterexample :
    (findPlant gC7c "梅").map (fun p => p.latin_name) = some none ∧
    (get_plant_detail gC7c "梅").map (fun d => d.latin) = some none ∧
    (get_plant_detail gC7c "梅").map (fun d => d.distribution) =
      some "暂无分布信息" := by
  decide

/-- C7 (amended): for an existing canonical name, `get_plant_detail`
returns one structured record combining the flat attributes with all
four deduplicated relation-edge collections; the four descriptive flat
attributes (distribution, folk use, ecological meaning, cultural
symbol) are replaced by their fixed placeholder exactly when empty and
are never the empty string, while the taxonomy attributes (latin name,
family, genus) pass through unchanged, placeholder-free; a name with no
entity record yields the absent-result signal `none`. -/
theorem c7_amended (g : Graph) (n : String) :
    (findPlant g n = none → get_plant_detail g n = none) ∧
    (∀ p : Plant, findPlant g n = some p →
      ∃ d : PlantDetail, get_plant_detail g n = some d ∧
        d.name = p.name ∧ d.latin = p.latin_name ∧ d.family = p.family ∧
        d.genus = p.genus ∧
        (truthy p.distribution = false → d.distribution = "暂无分布信息") ∧
        (truthy p.folk_use = false → d.folk_use = "暂无民俗用途") ∧
        (truthy p.ecological_meaning = false → d.ecological = "暂无生态意义") ∧
        (truthy p.cultural_symbol = false → d.cultural_symbol = "暂无文化象征") ∧
        d.distribution ≠ "" ∧ d.folk_use ≠ "" ∧ d.ecological ≠ "" ∧
        d.cultural_symbol ≠ "" ∧
        d.symbols = distinctList (symbolsOf g n) ∧
        d.medicinal = distinctList (medicinalOf g n) ∧
        d.literature = distinctList (literatureOf g n) ∧
        d.festivals = distinctList (festivalsOf g n)) := by
  constructor
  · intro h
    simp [get_plant_detail, h]
  · intro p hp
    refine ⟨detailOf g n p,
      by simp [get_plant_detail, hp], rfl, rfl, rfl, rfl,
      fun h => orElse_of_not_truthy _ _ h, fun h => orElse_of_not_truthy _ _ h,
      fun h => orElse_of_not_truthy _ _ h, fun h => orElse_of_not_truthy _ _ h,
      orElse_ne_empty _ _ (by decide), orElse_ne_empty _ _ (by decide),
      orElse_ne_empty _ _ (by decide), orElse_ne_empty _ _ (by decide),
      rfl, rfl, rfl, rfl⟩

/-- C7 (witness): `c7_amended` instantiated on `gC7` (plant 梅 with
duplicated symbol edges) and on a missing name. -/
theorem c7_witness :
    get_plant_detail gC7 "玫瑰" = none ∧
    (get_plant_detail gC7 "梅").map (fun d => d.distribution) =
      some "暂无分布信息" ∧
    (get_plant_detail gC7 "梅").map (fun d => d.symbols) =
      some (distinctList (symbolsOf gC7 "梅")) := by
  obtain ⟨d, h1, hn, hl, hf, hg, hdist, hfolk, heco, hcs, hne1, hne2, hne3, hne4,
    hs, hm, hlit, hfe⟩ := (c7_amended gC7 "梅").2 (mkPlant "梅") (by decide)
  refine ⟨(c7_amended gC7 "玫瑰").1 (by decide), ?_, ?_⟩
  · rw [h1]
    simp [hdist (by decide)]
  · rw [h1]
    simp [hs]

/-- C8 (counterexample): the general handler's literature branch
appends the truncation indicator unconditionally, not only when more
than 10 matching entities exist: on `gC8` exactly one entity matches
the corpus query, yet the answer for 诗经 still ends with the
indicator ……. -/
theorem c8_counterexample :
    (lit_query gC8).length = 1 ∧
    answer gC8 tok0 "诗经" = "📜 《楚辞》《诗经》中记载的植物：荷……" ∧
    substrInS "……" (answer gC8 tok0 "诗经") = true := by
  decide

/-- C8 (amended): when no earlier general branch fires and the question
contains a literature-corpus keyword, the handler answers from the
corpus query with at most 10 entity names (the name list is truncated
to 10), appending the indicator …… whenever at least one match exists
(regardless of the match count); with no match it falls through to the
default prompt. -/
theorem c8_amended (g : Graph) (q : String)
    (h0 : List.any ["所有植物", "有哪些植物", "植物列表"]
      (fun k => substrInS k (pyLower q)) = false)
    (h1 : substrInS "端午" (pyLower q) = false)
    (h2 : substrInS "春节" (pyLower q) = false)
    (h3 : substrInS "重阳" (pyLower q) = false)
    (h4 : substrInS "中秋" (pyLower q) = false)
    (h5 : substrInS "清明" (pyLower q) = false)
    (h6 : (substrInS "楚辞" (pyLower q) || substrInS "诗经" (pyLower q)) = true) :
    ((lit_query g).take 10).length ≤ 10 ∧
    (lit_query g ≠ [] →
      handle_general_question g q =
        "📜 《楚辞》《诗经》中记载的植物：" ++
          String.intercalate "、" ((lit_query g).take 10) ++ "……") ∧
    (lit_query g = [] →
      handle_general_question g q =
        "❓ 请明确指定植物名称（如：兰有什么文化象征？）") := by
  refine ⟨List.length_take_le 10 (lit_query g), ?_, ?_⟩
  · intro hne
    have hE : (lit_query g).isEmpty = false := by
      cases hq : lit_query g with
      | nil => exact absurd hq hne
      | cons a as => rfl
    simp [handle_general_question, h0, h1, h2, h3, h4, h5, h6, hE]
  · intro hq
    simp [handle_general_question, h0, h1, h2, h3, h4, h5, h6, hq]

/-- C8 (witness): `c8_amended` on `gC8` with question 诗经. -/
theorem c8_witness :
    ((lit_query gC8).take 10).length ≤ 10 ∧
    handle_general_question gC8 "诗经" =
      "📜 《楚辞》《诗经》中记载的植物：" ++
        String.intercalate "、" ((lit_query gC8).take 10) ++ "……" := by
  have h := c8_amended gC8 "诗经" (by decide) (by decide) (by decide) (by decide)
    (by decide) (by decide) (by decide)
  exact ⟨h.1, h.2.1 (by decide)⟩

/-- C9: on the input 端午节和什么植物有关？, when the entity resolver
yields the unresolved outcome and the graph has no RELATED_TO_FESTIVAL
edge to a festival whose name contains 端午, `answer` returns the fixed
curated fallback naming exactly 艾, 菖蒲 and 蒜. -/
theorem c9_dragon_boat (g : Graph) (tok : String → List String)
    (hres : resolveQuestion (get_all_plants g) tok "端午节和什么植物有关？" =
      Resolution.general)
    (hq : festival_query g "端午" = []) :
    answer g tok "端午节和什么植物有关？" = "🎋 端午节相关植物：艾、菖蒲、蒜" := by
  have hA : List.any ["所有植物", "有哪些植物", "植物列表"]
      (fun k => substrInS k (pyLower "端午节和什么植物有关？")) = false := by decide
  have hB : substrInS "端午" (pyLower "端午节和什么植物有关？") = true := by decide
  simp [answer, hres, handle_general_question, hA, hB, hq]

/-- C9 (witness): `c9_dragon_boat` on the empty graph. -/
theorem c9_witness :
    answer gEmpty tok0 "端午节和什么植物有关？" = "🎋 端午节相关植物：艾、菖蒲、蒜" :=
  c9_dragon_boat gEmpty tok0 (by decide) (by decide)

/-- C10: for a question reaching the general handler that does not
match the list-all group and does not contain 端午, each of the four
festival keywords 春节, 重阳, 中秋, 清明 (tested in that branch order)
yields its fixed curated answer with no graph query: the answer equals
a constant and is identical across any two graph states. -/
theorem c10_curated_festivals (g g2 : Graph) (q : String)
    (h0 : List.any ["所有植物", "有哪些植物", "植物列表"]
      (fun k => substrInS k (pyLower q)) = false)
    (h1 : substrInS "端午" (pyLower q) = false) :
    (substrInS "春节" (pyLower q) = true →
      handle_general_question g q = "🧧 春节相关植物：橘、桃、水仙" ∧
      handle_general_question g q = handle_general_question g2 q) ∧
    (substrInS "春节" (pyLower q) = false → substrInS "重阳" (pyLower q) = true →
      handle_general_question g q = "🏔️ 重阳节相关植物：菊、茱萸" ∧
      handle_general_question g q = handle_general_question g2 q) ∧
    (substrInS "春节" (pyLower q) = false → substrInS "重阳" (pyLower q) = false →
      substrInS "中秋" (pyLower q) = true →
      handle_general_question g q = "🌕 中秋节相关植物：桂" ∧
      handle_general_question g q = handle_general_question g2 q) ∧
    (substrInS "春节" (pyLower q) = false → substrInS "重阳" (pyLower q) = false →
      substrInS "中秋" (pyLower q) = false → substrInS "清明" (pyLower q) = true →
      handle_general_question g q = "🌧️ 清明节相关植物：柳、杜鹃、柏" ∧
      handle_general_question g q = handle_general_question g2 q) := by
  refine ⟨?_, ?_, ?_, ?_⟩
  · intro hc
    have e1 : handle_general_question g q = "🧧 春节相关植物：橘、桃、水仙" := by
      simp [handle_general_question, h0, h1, hc]
    have e2 : handle_general_question g2 q = "🧧 春节相关植物：橘、桃、水仙" := by
      simp [handle_general_question, h0, h1, hc]
    exact ⟨e1, e1.trans e2.symm⟩
  · intro hc hd
    have e1 : handle_general_question g q = "🏔️ 重阳节相关植物：菊、茱萸" := by
      simp [handle_general_question, h0, h1, hc, hd]
    have e2 : handle_general_question g2 q = "🏔️ 重阳节相关植物：菊、茱萸" := by
      simp [handle_general_question, h0, h1, hc, hd]
    exact ⟨e1, e1.trans e2.symm⟩
  · intro hc hd he
    have e1 : handle_general_question g q = "🌕 中秋节相关植物：桂" := by
      simp [handle_general_question, h0, h1, hc, hd, he]
    have e2 : handle_general_question g2 q = "🌕 中秋节相关植物：桂" := by
      simp [handle_general_question, h0, h1, hc, hd, he]
    exact ⟨e1, e1.trans e2.symm⟩
  · intro hc hd he hf
    have e1 : handle_general_question g q = "🌧️ 清明节相关植物：柳、杜鹃、柏" := by
      simp [handle_general_question, h0, h1, hc, hd, he, hf]
    have e2 : handle_general_question g2 q = "🌧️ 清明节相关植物：柳、杜鹃、柏" := by
      simp [handle_general_question, h0, h1, hc, hd, he, hf]
    exact ⟨e1, e1.trans e2.symm⟩

/-- C10 (witness): `c10_curated_festivals` on the empty graph and on
`gC10b` (which has plants and festival edges) for each of the four
festivals. -/
theorem c10_witness :
    (handle_general_question gEmpty "春节" = "🧧 春节相关植物：橘、桃、水仙" ∧
      handle_general_question gEmpty "春节" = handle_general_question gC10b "春节") ∧
    (handle_general_question gEmpty "重阳节" = "🏔️ 重阳节相关植物：菊、茱萸" ∧
      handle_general_question gEmpty "重阳节" = handle_general_question gC10b "重阳节") ∧
    (handle_general_question gEmpty "中秋" = "🌕 中秋节相关植物：桂" ∧
      handle_general_question gEmpty "中秋" = handle_general_question gC10b "中秋") ∧
    (handle_general_question gEmpty "清明" = "🌧️ 清明节相关植物：柳、杜鹃、柏" ∧
      handle_general_question gEmpty "清明" = handle_general_question gC10b "清明") :=
  ⟨(c10_curated_festivals gEmpty gC10b "春节" (by decide) (by decide)).1 (by decide),
   (c10_curated_festivals gEmpty gC10b "重阳节" (by decide) (by decide)).2.1
     (by decide) (by decide),
   (c10_curated_festivals gEmpty gC10b "中秋" (by decide) (by decide)).2.2.1
     (by decide) (by decide) (by decide),
   (c10_curated_festivals gEmpty gC10b "清明" (by decide) (by decide)).2.2.2
     (by decide) (by decide) (by decide) (by decide)⟩

end PlantQA
